import Mathlib

/-!
Shallow embedding of the lead-response follow-up engine (`src/api.py`).

The durable sqlite store (tables `leads` and `followup_jobs`) is modelled as
two in-memory lists; ISO-8601 UTC timestamp strings, which the code compares
lexicographically (equivalent to chronological order for the fixed format),
are modelled as natural numbers; `timedelta(hours=n)` becomes `hours n`
seconds.  Fallible collaborators (Twilio `send_sms`, smtplib `send_email`,
the OpenAI chat call) are modelled as explicit outcome parameters; a Python
exception becomes an `Except.error` value carrying the exception's type name
and message, exactly the two pieces the code interpolates into `last_error`.
Regular expressions (`\+\d{10,15}`, `[^@\s]+@[^@\s]+\.[^@\s]+`) are modelled
character-for-character over `String.toList`, with `\d` and `\s` embedded as
the exact Unicode code-point ranges CPython's `re` matches (`\d` is category
Nd, not just the ASCII digits).
-/

namespace LeadApi

/-- `followup_jobs.status`: the string column `pending|sent|failed|canceled`. -/
inductive JobStatus
  | pending
  | sent
  | failed
  | canceled
deriving DecidableEq, Repr

/-- One row of the `leads` table (`init_db`, src/api.py lines 75-91). -/
structure LeadRow where
  id : Nat
  created_utc : Nat
  name : String
  service : String
  interest : String
  lead_phone : String
  notify_email : String
  msg_0 : String
  msg_24h : String
  msg_72h : String
  sms_target : String
  sms_mode : String
  responded : Bool
deriving DecidableEq, Repr

/-- One row of the `followup_jobs` table (`init_db`, src/api.py lines 94-106).
`created_utc` is bookkeeping the dispatcher never reads and is omitted. -/
structure FollowupJob where
  id : Nat
  lead_id : Nat
  run_at_utc : Nat
  to_number : String
  body : String
  status : JobStatus
  attempts : Nat
  last_error : Option String
deriving DecidableEq, Repr

/-- The durable store: the two tables of `DB_PATH`. -/
structure DB where
  leads : List LeadRow
  jobs : List FollowupJob
deriving DecidableEq, Repr

/-- The generated message sequence: the dict `{msg_0, msg_24h, msg_72h}`. -/
structure MsgSeq where
  msg_0 : String
  msg_24h : String
  msg_72h : String
deriving DecidableEq, Repr

/-- The request body of `/generate-lead-response` (pydantic model `Lead`). -/
structure Lead where
  name : String
  service : String
  interest : String
  notify_email : String
  lead_phone : String
deriving DecidableEq, Repr

/-- An outcome of one Twilio `send_sms(to_number, body)` call: `Except.ok` when
the call returns, `Except.error (typeName, message)` when it raises. -/
abbrev Transport := String → String → Except (String × String) Unit

/-- The text the code builds from a caught exception:
`f"{type(e).__name__}: {e}"`. -/
def errText (e : String × String) : String := e.1 ++ ": " ++ e.2

/-- `timedelta(hours=n)` in seconds. -/
def hours (n : Nat) : Nat := n * 3600

/-- `UPDATE followup_jobs SET status='sent' WHERE id=?`
(src/api.py line 526): the dispatcher's mark-sent update.  Note the SQL
matches on `id` alone; there is no `AND status='pending'` guard. -/
def markSentById (jobs : List FollowupJob) (jobId : Nat) : List FollowupJob :=
  jobs.map fun j => if j.id = jobId then { j with status := JobStatus.sent } else j

/-- `UPDATE followup_jobs SET status='failed', attempts=?, last_error=? WHERE id=?`
(src/api.py lines 530-534): the dispatcher's mark-failed update, with
`attempts` set to the value fetched at selection time plus one.  As with
mark-sent, the SQL matches on `id` alone. -/
def markFailedById (jobs : List FollowupJob) (jobId attemptCount : Nat)
    (err : String) : List FollowupJob :=
  jobs.map fun j =>
    if j.id = jobId then
      { j with status := JobStatus.failed, attempts := attemptCount,
               last_error := some err }
    else j

/-! ### Basic facts about the per-job update statements -/

theorem mem_markSentById_of_ne {jobs : List FollowupJob} {j : FollowupJob}
    (h : j ∈ jobs) {tid : Nat} (hne : j.id ≠ tid) : j ∈ markSentById jobs tid := by
  unfold markSentById
  exact List.mem_map.mpr ⟨j, h, by rw [if_neg hne]⟩

theorem mem_markSentById_of_eq {jobs : List FollowupJob} {j : FollowupJob}
    (h : j ∈ jobs) {tid : Nat} (heq : j.id = tid) :
    { j with status := JobStatus.sent } ∈ markSentById jobs tid := by
  unfold markSentById
  exact List.mem_map.mpr ⟨j, h, by rw [if_pos heq]⟩

theorem mem_markFailedById_of_ne {jobs : List FollowupJob} {j : FollowupJob}
    (h : j ∈ jobs) {tid a : Nat} {err : String} (hne : j.id ≠ tid) :
    j ∈ markFailedById jobs tid a err := by
  unfold markFailedById
  exact List.mem_map.mpr ⟨j, h, by rw [if_neg hne]⟩

theorem mem_markFailedById_of_eq {jobs : List FollowupJob} {j : FollowupJob}
    (h : j ∈ jobs) {tid a : Nat} {err : String} (heq : j.id = tid) :
    { j with status := JobStatus.failed, attempts := a, last_error := some err }
      ∈ markFailedById jobs tid a err := by
  unfold markFailedById
  exact List.mem_map.mpr ⟨j, h, by rw [if_pos heq]⟩

/-- A `followup_jobs` row that reached the terminal status `canceled`
(e.g. canceled by `/twilio/sms` between the dispatcher's `SELECT` and its
`UPDATE`). -/
def canceledJob : FollowupJob :=
  { id := 1, lead_id := 1, run_at_utc := 0, to_number := "+15550000001",
    body := "hello", status := JobStatus.canceled, attempts := 0, last_error := none }

/-- C1: refuted on the code.  The claim says the dispatcher's mark-sent and
mark-failed updates are no-ops on a job whose status is no longer `pending`.
The SQL (`UPDATE followup_jobs SET status='sent' WHERE id=?`, src/api.py line
526, and the mark-failed update at lines 530-534) matches on `id` alone, with
no `status='pending'` guard: applied to a job in the terminal state
`canceled`, mark-sent flips it to `sent` and mark-failed flips it to `failed`
with `attempts` and `last_error` overwritten — a transition out of a terminal
state. -/
theorem markSent_overwrites_canceled :
    (markSentById [canceledJob] 1).map FollowupJob.status = [JobStatus.sent]
    ∧ (markFailedById [canceledJob] 1 1 "TwilioRestException: boom").map
        FollowupJob.status = [JobStatus.failed] := by
  constructor <;> rfl

/-- C9: marking a job sent is idempotent.  Applying the dispatcher's mark-sent
update (`UPDATE followup_jobs SET status='sent' WHERE id=?`) twice with the
same job id yields the same table as applying it once; the update never
touches the `attempts` column, and afterwards the targeted job's status is
`sent`. -/
theorem markSent_idempotent (jobs : List FollowupJob) (jobId : Nat) :
    markSentById (markSentById jobs jobId) jobId = markSentById jobs jobId
    ∧ (markSentById jobs jobId).map FollowupJob.attempts
        = jobs.map FollowupJob.attempts
    ∧ ∀ j ∈ markSentById jobs jobId, j.id = jobId → j.status = JobStatus.sent := by
  refine ⟨?_, ?_, ?_⟩
  · unfold markSentById
    rw [List.map_map]
    refine List.map_congr_left fun a _ => ?_
    by_cases h : a.id = jobId
    · simp [Function.comp, h]
    · simp [Function.comp, h]
  · unfold markSentById
    rw [List.map_map]
    refine List.map_congr_left fun a _ => ?_
    by_cases h : a.id = jobId
    · simp [Function.comp, h]
    · simp [Function.comp, h]
  · intro j hj hid
    rcases List.mem_map.mp hj with ⟨a, _, rfl⟩
    by_cases h : a.id = jobId
    · simp [h]
    · simp only [if_neg h] at hid ⊢
      exact absurd hid h

/-! ### Due-job selection (`dispatch_followups`, src/api.py lines 508-518)

```
SELECT j.id, j.to_number, j.body, j.attempts
FROM followup_jobs j JOIN leads l ON l.id = j.lead_id
WHERE j.status='pending' AND l.responded = 0 AND j.run_at_utc <= ?
ORDER BY j.run_at_utc ASC LIMIT 25
```
The join condition `l.id = j.lead_id` together with `l.responded = 0` is the
existential over the leads table; `ORDER BY j.run_at_utc ASC` is a sort by
`run_at_utc` (sqlite fixes no order among ties, so any correct sort is a
faithful model); `LIMIT 25` is `take 25`. -/

/-- The `ORDER BY j.run_at_utc ASC` comparison. -/
def jobLE (a b : FollowupJob) : Prop := a.run_at_utc ≤ b.run_at_utc

instance : DecidableRel jobLE :=
  fun j₁ j₂ => inferInstanceAs (Decidable (j₁.run_at_utc ≤ j₂.run_at_utc))

instance : IsTotal FollowupJob jobLE := ⟨fun a b => Nat.le_total a.run_at_utc b.run_at_utc⟩

instance : IsTrans FollowupJob jobLE := ⟨fun _ _ _ h h' => Nat.le_trans h h'⟩

/-- The WHERE clause of the dispatcher's selection query. -/
def dueFilter (db : DB) (now : Nat) (j : FollowupJob) : Prop :=
  j.status = JobStatus.pending ∧ j.run_at_utc ≤ now ∧
    ∃ l ∈ db.leads, l.id = j.lead_id ∧ l.responded = false

instance (db : DB) (now : Nat) (j : FollowupJob) : Decidable (dueFilter db now j) :=
  inferInstanceAs (Decidable (_ ∧ _))

/-- The rows the dispatcher's selection query returns, in order. -/
def selectDue (db : DB) (now : Nat) : List FollowupJob :=
  (List.insertionSort jobLE (db.jobs.filter fun j => decide (dueFilter db now j))).take 25

theorem mem_selectDue {db : DB} {now : Nat} {j : FollowupJob}
    (h : j ∈ selectDue db now) : j ∈ db.jobs ∧ dueFilter db now j := by
  unfold selectDue at h
  have h1 := (List.take_sublist 25 _).subset h
  have h2 := (List.perm_insertionSort jobLE _).subset h1
  have h3 := List.mem_filter.mp h2
  exact ⟨h3.1, of_decide_eq_true h3.2⟩

/-- The selected rows are a sub-multiset of the jobs table. -/
theorem selectDue_subperm (db : DB) (now : Nat) :
    List.Subperm (selectDue db now) db.jobs := by
  unfold selectDue
  refine List.Subperm.trans ?_
    (List.Sublist.subperm
      (List.filter_sublist (p := fun j => decide (dueFilter db now j)) db.jobs))
  exact ((List.take_sublist 25 _).subperm).trans
    (List.perm_insertionSort jobLE _).subperm

theorem selectDue_nodup_ids {db : DB} (now : Nat)
    (hids : (db.jobs.map FollowupJob.id).Nodup) :
    ((selectDue db now).map FollowupJob.id).Nodup := by
  rcases selectDue_subperm db now with ⟨l, hperm, hsub⟩
  have : (l.map FollowupJob.id).Nodup :=
    List.Nodup.sublist (hsub.map FollowupJob.id) hids
  exact (hperm.map FollowupJob.id).nodup this

/-- C2: for every store state and time `now`, the dispatcher's selection
returns only jobs with status `pending`, `run_at_utc ≤ now`, and whose owning
lead (the unique `leads` row with `l.id = j.lead_id`; `id` is the table's
primary key, whence the `Nodup` hypothesis) has `responded = false`; the
result is ordered ascending by `run_at_utc` and holds at most the batch
limit of 25 rows. -/
theorem selectDue_spec (db : DB) (now : Nat)
    (hids : (db.leads.map LeadRow.id).Nodup) :
    (∀ j ∈ selectDue db now,
      j.status = JobStatus.pending ∧ j.run_at_utc ≤ now ∧
        ∀ l ∈ db.leads, l.id = j.lead_id → l.responded = false)
    ∧ List.Sorted jobLE (selectDue db now)
    ∧ (selectDue db now).length ≤ 25 := by
  refine ⟨?_, ?_, ?_⟩
  · intro j hj
    obtain ⟨-, hpend, hrun, l₀, hl₀, hid₀, hresp₀⟩ := mem_selectDue hj
    refine ⟨hpend, hrun, fun l hl hid => ?_⟩
    have : l = l₀ := List.inj_on_of_nodup_map hids hl hl₀ (by rw [hid₀, hid])
    rw [this, hresp₀]
  · exact (List.sorted_insertionSort jobLE _).sublist (List.take_sublist 25 _)
  · unfold selectDue
    rw [List.length_take]
    exact min_le_left _ _

/-- A lead row for concrete instances. -/
def exLead : LeadRow :=
  { id := 1, created_utc := 0, name := "Mike", service := "Roofing estimate",
    interest := "Storm damage", lead_phone := "+15551230001",
    notify_email := "mike@example.com", msg_0 := "hi", msg_24h := "follow up",
    msg_72h := "last note", sms_target := "+15551230001", sms_mode := "live",
    responded := false }

/-- Two pending follow-up jobs of `exLead`, due at +24h and +72h. -/
def exJob1 : FollowupJob :=
  { id := 11, lead_id := 1, run_at_utc := hours 24, to_number := "+15551230001",
    body := "follow up", status := JobStatus.pending, attempts := 0, last_error := none }

def exJob2 : FollowupJob :=
  { id := 12, lead_id := 1, run_at_utc := hours 72, to_number := "+15551230001",
    body := "last note", status := JobStatus.pending, attempts := 0, last_error := none }

def exDB : DB := { leads := [exLead], jobs := [exJob1, exJob2] }

/-- C2 witness: `selectDue_spec` at a concrete store with one lead and two due
jobs, queried at `now = 100h`. -/
theorem selectDue_spec_witness :
    (∀ j ∈ selectDue exDB (hours 100),
      j.status = JobStatus.pending ∧ j.run_at_utc ≤ hours 100 ∧
        ∀ l ∈ exDB.leads, l.id = j.lead_id → l.responded = false)
    ∧ List.Sorted jobLE (selectDue exDB (hours 100))
    ∧ (selectDue exDB (hours 100)).length ≤ 25 :=
  selectDue_spec exDB (hours 100) (by decide)

/-! ### The dispatch batch (`dispatch_followups`, src/api.py lines 498-539)

The handler selects the due rows (`fetchall`, so the row snapshot is fixed
before any update), then loops: `send_sms(to_number, body)`; on return it runs
the mark-sent update and increments `sent`; on any exception it increments
`failed` and runs the mark-failed update with `attempts+1` computed from the
snapshot and `last_error = f"{type(e).__name__}: {e}"`.  The loop body
catches every exception, so one send's failure never aborts the batch.
Finally it returns `{now_utc, sent, failed, checked}`. -/

/-- One fetched row of the selection query:
`SELECT j.id, j.to_number, j.body, j.attempts`. -/
structure DueRow where
  id : Nat
  to_number : String
  body : String
  attempts : Nat
deriving DecidableEq, Repr

def rowOf (j : FollowupJob) : DueRow := ⟨j.id, j.to_number, j.body, j.attempts⟩

/-- Whether `send_sms(to_number, body)` returns without raising. -/
def sendOk (transport : Transport) (toNum body : String) : Bool :=
  match transport toNum body with
  | Except.ok _ => true
  | Except.error _ => false

/-- The `for job_id, to_number, body, attempts in rows:` loop. -/
def dispatchLoop (transport : Transport) :
    List DueRow → List FollowupJob → Nat → Nat → List FollowupJob × Nat × Nat
  | [], jobs, sent, failCount => (jobs, sent, failCount)
  | r :: rest, jobs, sent, failCount =>
    match transport r.to_number r.body with
    | Except.ok _ => dispatchLoop transport rest (markSentById jobs r.id) (sent + 1) failCount
    | Except.error e =>
        dispatchLoop transport rest
          (markFailedById jobs r.id (r.attempts + 1) (errText e)) sent (failCount + 1)

/-- The JSON body `{"sent": ..., "failed": ..., "checked": ...}` the handler
returns (`now_utc` is the `now` argument echoed back). -/
structure DispatchResult where
  sent : Nat
  failCount : Nat
  checked : Nat
deriving DecidableEq, Repr

/-- The whole `/dispatch-followups` invocation: select, loop, return counts.
The new `DB` is the state the single `con.commit()` at the end of the batch
publishes. -/
def dispatch_followups (db : DB) (now : Nat) (transport : Transport) :
    DB × DispatchResult :=
  let rows := (selectDue db now).map rowOf
  let out := dispatchLoop transport rows db.jobs 0 0
  ({ db with jobs := out.1 }, ⟨out.2.1, out.2.2, rows.length⟩)

/-- Durable-state semantics of the batch: every `cur.execute` update runs on
the one sqlite connection inside one transaction, and only `con.commit()`
(src/api.py line 536) publishes them.  If the store fails before that commit
the transaction is rolled back and the durable state is the original `db`. -/
def dispatch_durable (db : DB) (now : Nat) (transport : Transport)
    (commitReached : Bool) : DB :=
  if commitReached then (dispatch_followups db now transport).1 else db

/-! Facts about the dispatch loop. -/

theorem dispatchLoop_untouched (transport : Transport) :
    ∀ (rows : List DueRow) (jobs : List FollowupJob) (s f : Nat) (j : FollowupJob),
      j ∈ jobs → (∀ r ∈ rows, j.id ≠ r.id) →
      j ∈ (dispatchLoop transport rows jobs s f).1
  | [], jobs, s, f, j, hj, _ => hj
  | r :: rest, jobs, s, f, j, hj, hne => by
    have hr : j.id ≠ r.id := hne r (List.mem_cons_self r rest)
    have hrest : ∀ r' ∈ rest, j.id ≠ r'.id := fun r' h' => hne r' (List.mem_cons_of_mem r h')
    unfold dispatchLoop
    cases htr : transport r.to_number r.body with
    | ok u =>
        exact dispatchLoop_untouched transport rest _ _ _ j
          (mem_markSentById_of_ne hj hr) hrest
    | error e =>
        exact dispatchLoop_untouched transport rest _ _ _ j
          (mem_markFailedById_of_ne hj hr) hrest

theorem dispatchLoop_processes_ok (transport : Transport) :
    ∀ (rows : List DueRow) (jobs : List FollowupJob) (s f : Nat) (r : DueRow)
      (j : FollowupJob), r ∈ rows → (rows.map DueRow.id).Nodup → j ∈ jobs →
      j.id = r.id → transport r.to_number r.body = Except.ok () →
      { j with status := JobStatus.sent } ∈ (dispatchLoop transport rows jobs s f).1
  | [], _, _, _, _, _, hr, _, _, _, _ => absurd hr (List.not_mem_nil _)
  | r0 :: rest, jobs, s, f, r, j, hr, hnodup, hj, hid, hok => by
    rcases List.mem_cons.mp hr with rfl | hrmem
    · unfold dispatchLoop
      rw [hok]
      have h1 : r.id ∉ rest.map DueRow.id := (List.nodup_cons.mp hnodup).1
      refine dispatchLoop_untouched transport rest _ _ _ _
        (mem_markSentById_of_eq hj hid) (fun r' h' hcontra => ?_)
      have hjr : j.id = r'.id := hcontra
      have : r.id ∈ rest.map DueRow.id := by
        rw [hid.symm.trans hjr]; exact List.mem_map_of_mem DueRow.id h'
      exact h1 this
    · have hne : j.id ≠ r0.id := by
        have h1 : r0.id ∉ rest.map DueRow.id := (List.nodup_cons.mp hnodup).1
        intro hcontra
        have : r0.id ∈ rest.map DueRow.id := by
          rw [hcontra.symm.trans hid]; exact List.mem_map_of_mem DueRow.id hrmem
        exact h1 this
      have hrest : (rest.map DueRow.id).Nodup := (List.nodup_cons.mp hnodup).2
      unfold dispatchLoop
      cases htr : transport r0.to_number r0.body with
      | ok u =>
          exact dispatchLoop_processes_ok transport rest _ _ _ r j hrmem hrest
            (mem_markSentById_of_ne hj hne) hid hok
      | error e =>
          exact dispatchLoop_processes_ok transport rest _ _ _ r j hrmem hrest
            (mem_markFailedById_of_ne hj hne) hid hok

theorem dispatchLoop_processes_error (transport : Transport) :
    ∀ (rows : List DueRow) (jobs : List FollowupJob) (s f : Nat) (r : DueRow)
      (j : FollowupJob) (e : String × String), r ∈ rows →
      (rows.map DueRow.id).Nodup → j ∈ jobs → j.id = r.id →
      transport r.to_number r.body = Except.error e →
      { j with status := JobStatus.failed, attempts := r.attempts + 1,
               last_error := some (errText e) }
        ∈ (dispatchLoop transport rows jobs s f).1
  | [], _, _, _, _, _, _, hr, _, _, _, _ => absurd hr (List.not_mem_nil _)
  | r0 :: rest, jobs, s, f, r, j, e, hr, hnodup, hj, hid, herr => by
    rcases List.mem_cons.mp hr with rfl | hrmem
    · unfold dispatchLoop
      rw [herr]
      have h1 : r.id ∉ rest.map DueRow.id := (List.nodup_cons.mp hnodup).1
      refine dispatchLoop_untouched transport rest _ _ _ _
        (mem_markFailedById_of_eq hj hid) (fun r' h' hcontra => ?_)
      have hjr : j.id = r'.id := hcontra
      have : r.id ∈ rest.map DueRow.id := by
        rw [hid.symm.trans hjr]; exact List.mem_map_of_mem DueRow.id h'
      exact h1 this
    · have hne : j.id ≠ r0.id := by
        have h1 : r0.id ∉ rest.map DueRow.id := (List.nodup_cons.mp hnodup).1
        intro hcontra
        have : r0.id ∈ rest.map DueRow.id := by
          rw [hcontra.symm.trans hid]; exact List.mem_map_of_mem DueRow.id hrmem
        exact h1 this
      have hrest : (rest.map DueRow.id).Nodup := (List.nodup_cons.mp hnodup).2
      unfold dispatchLoop
      cases htr : transport r0.to_number r0.body with
      | ok u =>
          exact dispatchLoop_processes_error transport rest _ _ _ r j e hrmem hrest
            (mem_markSentById_of_ne hj hne) hid herr
      | error e' =>
          exact dispatchLoop_processes_error transport rest _ _ _ r j e hrmem hrest
            (mem_markFailedById_of_ne hj hne) hid herr

theorem dispatchLoop_counts (transport : Transport) :
    ∀ (rows : List DueRow) (jobs : List FollowupJob) (s f : Nat),
      (dispatchLoop transport rows jobs s f).2.1
          = s + rows.countP (fun r => sendOk transport r.to_number r.body)
      ∧ (dispatchLoop transport rows jobs s f).2.2
          = f + rows.countP (fun r => !sendOk transport r.to_number r.body)
  | [], jobs, s, f => by simp [dispatchLoop]
  | r :: rest, jobs, s, f => by
    unfold dispatchLoop
    cases htr : transport r.to_number r.body with
    | ok u =>
        have hok : sendOk transport r.to_number r.body = true := by
          unfold sendOk; rw [htr]
        have ih := dispatchLoop_counts transport rest
          (markSentById jobs r.id) (s + 1) f
        rw [List.countP_cons, List.countP_cons, hok, ih.1, ih.2]
        refine ⟨by simp; try omega, by simp; try omega⟩
    | error e =>
        have hok : sendOk transport r.to_number r.body = false := by
          unfold sendOk; rw [htr]
        have ih := dispatchLoop_counts transport rest
          (markFailedById jobs r.id (r.attempts + 1) (errText e)) s (f + 1)
        rw [List.countP_cons, List.countP_cons, hok, ih.1, ih.2]
        refine ⟨by simp; try omega, by simp; try omega⟩

theorem countP_bool_add {α : Type} (p : α → Bool) (l : List α) :
    l.countP p + l.countP (fun a => !p a) = l.length := by
  induction l with
  | nil => simp
  | cons a l ih =>
      by_cases h : p a = true <;>
        simp [List.countP_cons, h] <;> omega

theorem errText_ne_empty (e : String × String) : errText e ≠ "" := by
  intro h
  have hlen := congrArg String.length h
  rw [errText, String.length_append, String.length_append] at hlen
  have h2 : (": ").length = 2 := rfl
  have h0 : ("" : String).length = 0 := rfl
  omega

theorem selectDue_rowOf_ids (db : DB) (now : Nat) :
    ((selectDue db now).map rowOf).map DueRow.id = (selectDue db now).map FollowupJob.id := by
  rw [List.map_map]
  exact List.map_congr_left fun j _ => rfl

/-- C5: a transport failure on one job never aborts the dispatch batch or
raises to the caller.  With `id` the primary key of `followup_jobs` (the
`Nodup` hypothesis), a selected job whose `send_sms` raises ends with
`status = failed`, `attempts` incremented by one and a non-empty
`last_error`; every other selected job whose send succeeds is still marked
`sent`; and the invocation returns the counts of sent and failed jobs, which
add up to the number of rows checked. -/
theorem dispatch_partial_failure (db : DB) (now : Nat) (transport : Transport)
    (hids : (db.jobs.map FollowupJob.id).Nodup)
    (j0 : FollowupJob) (hj0 : j0 ∈ selectDue db now)
    (e : String × String) (herr : transport j0.to_number j0.body = Except.error e) :
    (∃ j' ∈ (dispatch_followups db now transport).1.jobs,
        j'.id = j0.id ∧ j'.status = JobStatus.failed ∧
        j'.attempts = j0.attempts + 1 ∧ j'.last_error = some (errText e) ∧
        errText e ≠ "")
    ∧ (∀ j1 ∈ selectDue db now, transport j1.to_number j1.body = Except.ok () →
        ∃ j' ∈ (dispatch_followups db now transport).1.jobs,
          j'.id = j1.id ∧ j'.status = JobStatus.sent)
    ∧ (dispatch_followups db now transport).2.sent
        = (selectDue db now).countP (fun j => sendOk transport j.to_number j.body)
    ∧ (dispatch_followups db now transport).2.failCount
        = (selectDue db now).countP (fun j => !sendOk transport j.to_number j.body)
    ∧ (dispatch_followups db now transport).2.sent
        + (dispatch_followups db now transport).2.failCount
        = (dispatch_followups db now transport).2.checked := by
  have hrowids : (((selectDue db now).map rowOf).map DueRow.id).Nodup := by
    rw [selectDue_rowOf_ids]
    exact selectDue_nodup_ids now hids
  have hjobs : (dispatch_followups db now transport).1.jobs
      = (dispatchLoop transport ((selectDue db now).map rowOf) db.jobs 0 0).1 := rfl
  refine ⟨?_, ?_, ?_, ?_, ?_⟩
  · refine ⟨{ j0 with
              status := JobStatus.failed
              attempts := j0.attempts + 1
              last_error := some (errText e) }, ?_, rfl, rfl, rfl, rfl,
            errText_ne_empty e⟩
    rw [hjobs]
    exact dispatchLoop_processes_error transport _ _ _ _ (rowOf j0) j0 e
      (List.mem_map_of_mem rowOf hj0) hrowids (mem_selectDue hj0).1 rfl herr
  · intro j1 hj1 hok1
    refine ⟨{ j1 with status := JobStatus.sent }, ?_, rfl, rfl⟩
    rw [hjobs]
    exact dispatchLoop_processes_ok transport _ _ _ _ (rowOf j1) j1
      (List.mem_map_of_mem rowOf hj1) hrowids (mem_selectDue hj1).1 rfl hok1
  · have h := (dispatchLoop_counts transport ((selectDue db now).map rowOf) db.jobs 0 0).1
    have : (dispatch_followups db now transport).2.sent
        = (dispatchLoop transport ((selectDue db now).map rowOf) db.jobs 0 0).2.1 := rfl
    rw [this, h, List.countP_map, Nat.zero_add]
    rfl
  · have h := (dispatchLoop_counts transport ((selectDue db now).map rowOf) db.jobs 0 0).2
    have : (dispatch_followups db now transport).2.failCount
        = (dispatchLoop transport ((selectDue db now).map rowOf) db.jobs 0 0).2.2 := rfl
    rw [this, h, List.countP_map, Nat.zero_add]
    rfl
  · have hs := (dispatchLoop_counts transport ((selectDue db now).map rowOf) db.jobs 0 0).1
    have hf := (dispatchLoop_counts transport ((selectDue db now).map rowOf) db.jobs 0 0).2
    have hchk : (dispatch_followups db now transport).2.checked
        = ((selectDue db now).map rowOf).length := rfl
    have hsent : (dispatch_followups db now transport).2.sent
        = (dispatchLoop transport ((selectDue db now).map rowOf) db.jobs 0 0).2.1 := rfl
    have hfail : (dispatch_followups db now transport).2.failCount
        = (dispatchLoop transport ((selectDue db now).map rowOf) db.jobs 0 0).2.2 := rfl
    rw [hsent, hfail, hchk, hs, hf, Nat.zero_add, Nat.zero_add]
    exact countP_bool_add _ _

/-- A transport that fails exactly on the body of `exJob2` and succeeds on
everything else. -/
def exTransport : Transport := fun _ body =>
  if body = "last note" then Except.error ("TwilioRestException", "boom")
  else Except.ok ()

/-- C5 witness: `dispatch_partial_failure` at the concrete store `exDB`
(two due jobs) with a transport that raises on `exJob2`'s body only. -/
theorem dispatch_partial_failure_witness :
    (∃ j' ∈ (dispatch_followups exDB (hours 100) exTransport).1.jobs,
        j'.id = exJob2.id ∧ j'.status = JobStatus.failed ∧
        j'.attempts = exJob2.attempts + 1 ∧
        j'.last_error = some (errText ("TwilioRestException", "boom")) ∧
        errText ("TwilioRestException", "boom") ≠ "")
    ∧ (∀ j1 ∈ selectDue exDB (hours 100),
        exTransport j1.to_number j1.body = Except.ok () →
        ∃ j' ∈ (dispatch_followups exDB (hours 100) exTransport).1.jobs,
          j'.id = j1.id ∧ j'.status = JobStatus.sent)
    ∧ (dispatch_followups exDB (hours 100) exTransport).2.sent
        = (selectDue exDB (hours 100)).countP
            (fun j => sendOk exTransport j.to_number j.body)
    ∧ (dispatch_followups exDB (hours 100) exTransport).2.failCount
        = (selectDue exDB (hours 100)).countP
            (fun j => !sendOk exTransport j.to_number j.body)
    ∧ (dispatch_followups exDB (hours 100) exTransport).2.sent
        + (dispatch_followups exDB (hours 100) exTransport).2.failCount
        = (dispatch_followups exDB (hours 100) exTransport).2.checked :=
  dispatch_partial_failure exDB (hours 100) exTransport (by decide) exJob2
    (by decide) ("TwilioRestException", "boom") rfl

/-- C10: the per-job updates of one dispatch invocation become durable
together, in the single `con.commit()` at the end of the batch.  If the store
fails before that commit, the durable state is the original `db`: every
selected job — including one whose SMS send already returned successfully
during the batch — is still present with status `pending`, so the message can
be re-sent by a later invocation. -/
theorem batch_updates_atomic (db : DB) (now : Nat) (transport : Transport)
    (j : FollowupJob) (hj : j ∈ selectDue db now)
    (_hok : transport j.to_number j.body = Except.ok ()) :
    j ∈ (dispatch_durable db now transport false).jobs
    ∧ j.status = JobStatus.pending := by
  have h := mem_selectDue hj
  refine ⟨?_, h.2.1⟩
  show j ∈ (if false = true then (dispatch_followups db now transport).1 else db).jobs
  rw [if_neg (by decide)]
  exact h.1

/-- A transport that always succeeds. -/
def okTransport : Transport := fun _ _ => Except.ok ()

/-- C10 witness: `batch_updates_atomic` at `exDB` with an always-successful
transport and the due job `exJob1`. -/
theorem batch_updates_atomic_witness :
    exJob1 ∈ (dispatch_durable exDB (hours 100) okTransport false).jobs
    ∧ exJob1.status = JobStatus.pending :=
  batch_updates_atomic exDB (hours 100) okTransport exJob1 (by decide) rfl

/-! ### Inbound-response handling (`mark_responded_by_phone`, src/api.py
lines 334-356)

The function first selects the ids of the leads matching the phone that have
`responded = 0`, then runs `UPDATE leads SET responded = 1 WHERE lead_phone = ?`
(all matching leads — setting `responded = 1` on an already-responded row is
the identity), then cancels the still-`pending` jobs whose `lead_id` is among
the newly flagged ids, and returns `len(lead_ids)`. -/

/-- `SELECT id FROM leads WHERE lead_phone = ? AND responded = 0`. -/
def newlyFlagged (db : DB) (phone : String) : List Nat :=
  (db.leads.filter fun l => decide (l.lead_phone = phone ∧ l.responded = false)).map
    LeadRow.id

def mark_responded_by_phone (db : DB) (phone : String) : DB × Nat :=
  let lead_ids := newlyFlagged db phone
  ({ leads := db.leads.map fun l =>
        if l.lead_phone = phone then { l with responded := true } else l,
     jobs := db.jobs.map fun j =>
        if j.status = JobStatus.pending ∧ j.lead_id ∈ lead_ids then
          { j with status := JobStatus.canceled }
        else j },
   lead_ids.length)

/-- C3: recording an inbound response for a contact phone sets
`responded = true` on every lead matching that phone (a no-op on those already
responded), transitions every `pending` follow-up job of each newly flagged
lead to `canceled`, leaves jobs in any other status — and pending jobs of
leads that were not newly flagged — untouched, and returns the number of
leads newly flagged: the count of leads matching the phone that had
`responded = false`, hence 0 when none matched or all had already responded. -/
theorem mark_responded_spec (db : DB) (phone : String) :
    ((mark_responded_by_phone db phone).2
        = (db.leads.filter fun l =>
            decide (l.lead_phone = phone ∧ l.responded = false)).length)
    ∧ (∀ l ∈ db.leads, l.lead_phone = phone →
        { l with responded := true } ∈ (mark_responded_by_phone db phone).1.leads)
    ∧ (∀ l ∈ db.leads, l.lead_phone ≠ phone →
        l ∈ (mark_responded_by_phone db phone).1.leads)
    ∧ (∀ j ∈ db.jobs, j.status = JobStatus.pending →
        j.lead_id ∈ newlyFlagged db phone →
        { j with status := JobStatus.canceled } ∈ (mark_responded_by_phone db phone).1.jobs)
    ∧ (∀ j ∈ db.jobs, j.status ≠ JobStatus.pending →
        j ∈ (mark_responded_by_phone db phone).1.jobs)
    ∧ (∀ j ∈ db.jobs, j.lead_id ∉ newlyFlagged db phone →
        j ∈ (mark_responded_by_phone db phone).1.jobs) := by
  refine ⟨?_, ?_, ?_, ?_, ?_, ?_⟩
  · show (newlyFlagged db phone).length = _
    unfold newlyFlagged
    rw [List.length_map]
  · intro l hl hphone
    exact List.mem_map.mpr ⟨l, hl, by rw [if_pos hphone]⟩
  · intro l hl hphone
    exact List.mem_map.mpr ⟨l, hl, by rw [if_neg hphone]⟩
  · intro j hj hpend hflag
    exact List.mem_map.mpr ⟨j, hj, by rw [if_pos ⟨hpend, hflag⟩]⟩
  · intro j hj hnpend
    exact List.mem_map.mpr ⟨j, hj, by
      rw [if_neg]
      intro hcontra
      exact hnpend hcontra.1⟩
  · intro j hj hnflag
    exact List.mem_map.mpr ⟨j, hj, by
      rw [if_neg]
      intro hcontra
      exact hnflag hcontra.2⟩

/-! ### Validation helpers (src/api.py lines 124-128)

The code validates with `re` on `str` patterns, whose classes are
Unicode-aware: `\d` matches every character of Unicode category Nd (decimal
digit) and `\s` the regex whitespace set.  Both classes are embedded below as
the exact code-point ranges CPython 3.11's `re` matches (computed by running
`re.fullmatch` over every code point), so the model accepts and rejects
character-for-character what the program does.

`is_valid_e164` is `re.fullmatch(r"\+\d{10,15}", phone)`: a `+` followed by 10
to 15 `\d` characters.  `is_valid_email` is
`re.fullmatch(r"[^@\s]+@[^@\s]+\.[^@\s]+", email)`: writing `n` for the string
length, this matches exactly when there is an `@` at an index `ai` with a
non-empty run of atom characters (neither `@` nor `\s`) before it, and
the rest is atom characters containing a `.` at an index `di` with
`ai + 2 ≤ di ≤ n - 2` (a non-empty atom run strictly between `@` and `.`, and
after `.`); equivalently: every character other than the single `@` is an
atom character, `ai ≥ 1`, and some `.` lies at `ai + 2 ≤ di ≤ n - 2`. -/

/-- The code-point ranges of Unicode category Nd: exactly the characters
Python's `\d` matches (each range is a contiguous block of ten digits, except
the mathematical alphanumeric block 120782-120831). -/
def ndRanges : List (Nat × Nat) :=
  [(48, 57), (1632, 1641), (1776, 1785), (1984, 1993), (2406, 2415),
   (2534, 2543), (2662, 2671), (2790, 2799), (2918, 2927), (3046, 3055),
   (3174, 3183), (3302, 3311), (3430, 3439), (3558, 3567), (3664, 3673),
   (3792, 3801), (3872, 3881), (4160, 4169), (4240, 4249), (6112, 6121),
   (6160, 6169), (6470, 6479), (6608, 6617), (6784, 6793), (6800, 6809),
   (6992, 7001), (7088, 7097), (7232, 7241), (7248, 7257), (42528, 42537),
   (43216, 43225), (43264, 43273), (43472, 43481), (43504, 43513),
   (43600, 43609), (44016, 44025), (65296, 65305), (66720, 66729),
   (68912, 68921), (69734, 69743), (69872, 69881), (69942, 69951),
   (70096, 70105), (70384, 70393), (70736, 70745), (70864, 70873),
   (71248, 71257), (71360, 71369), (71472, 71481), (71904, 71913),
   (72016, 72025), (72784, 72793), (73040, 73049), (73120, 73129),
   (92768, 92777), (92864, 92873), (93008, 93017), (120782, 120831),
   (123200, 123209), (123632, 123641), (125264, 125273), (130032, 130041)]

/-- A character Python's `\d` matches. -/
def pyDigit (c : Char) : Bool :=
  ndRanges.any fun r => decide (r.1 ≤ c.toNat ∧ c.toNat ≤ r.2)

/-- The code-point ranges Python's `\s` matches: `\t\n\v\f\r`, the
information-separator block 28-31, space, next line, no-break space, and the
Unicode space separators. -/
def pySpaceRanges : List (Nat × Nat) :=
  [(9, 13), (28, 32), (133, 133), (160, 160), (5760, 5760), (8192, 8202),
   (8232, 8233), (8239, 8239), (8287, 8287), (12288, 12288)]

/-- A character Python's `\s` matches. -/
def pySpace (c : Char) : Bool :=
  pySpaceRanges.any fun r => decide (r.1 ≤ c.toNat ∧ c.toNat ≤ r.2)

def is_valid_e164 (phone : String) : Bool :=
  match phone.toList with
  | '+' :: ds => decide (10 ≤ ds.length ∧ ds.length ≤ 15) && ds.all pyDigit
  | _ => false

/-- A character the class `[^@\s]` accepts. -/
def atomChar (c : Char) : Bool := decide (c ≠ '@' ∧ pySpace c = false)

def is_valid_email (email : String) : Bool :=
  let cs := email.toList
  decide (∃ ai < cs.length, ∃ di < cs.length,
    cs.getD ai ' ' = '@' ∧ cs.getD di ' ' = '.' ∧
    1 ≤ ai ∧ ai + 2 ≤ di ∧ di + 2 ≤ cs.length ∧
    ∀ k < cs.length, k ≠ ai → atomChar (cs.getD k ' ') = true)

/-- The claim's phone validity, in the claim's words: `+` followed by 10-15
digits (the digits of an E.164 number, ASCII `0`-`9`, as in the code's own
422 detail "lead_phone must be E.164 format like +18015551234"). -/
def specClaimPhoneValid (phone : String) : Bool :=
  match phone.toList with
  | '+' :: ds => decide (10 ≤ ds.length ∧ ds.length ≤ 15 ∧ ∀ c ∈ ds, c.isDigit = true)
  | _ => false

/-! ### Message-sequence generation (`generate_followup_sequence`, src/api.py
lines 232-281)

The OpenAI chat call is the excluded collaborator; its outcome is a
parameter.  `GenOutcome.raised` is the call raising (network, auth, rate
limit — nothing in `generate_followup_sequence` catches it, so it
propagates); `GenOutcome.text none` is the call returning text that
`json.loads` rejects (`json.JSONDecodeError`, caught: the fixed fallback
sequence is returned); `GenOutcome.text (some d)` is the call returning a
JSON object, with each of the three keys optionally present — each value is
`str(...).strip()[:120]`, and a missing key becomes `""`. -/

/-- A parsed JSON object from the model, keys optional. -/
structure GenDict where
  msg_0 : Option String
  msg_24h : Option String
  msg_72h : Option String

/-- Outcome of the OpenAI chat call inside `generate_followup_sequence`. -/
inductive GenOutcome
  | raised
  | text (parsed : Option GenDict)

/-- The fixed fallback sequence (src/api.py lines 277-281). -/
def fallbackSeq : MsgSeq :=
  { msg_0 := "Sorry — quick roof check this week. Today or tomorrow?"
    msg_24h := "Adjusters are filling up. Want us to check it Thursday or Friday?"
    msg_72h := "Small storm damage turns costly fast. Still want a roof check this week?" }

/-- `str(data.get(key, "")).strip()[:120]`. -/
def clean120 (s : Option String) : String := ((s.getD "").trim).take 120

def generate_followup_sequence (out : GenOutcome) : Except String MsgSeq :=
  match out with
  | GenOutcome.raised => Except.error "OpenAI API call raised"
  | GenOutcome.text none => Except.ok fallbackSeq
  | GenOutcome.text (some d) =>
      Except.ok { msg_0 := clean120 d.msg_0, msg_24h := clean120 d.msg_24h,
                  msg_72h := clean120 d.msg_72h }

/-! ### Persistence (`save_lead_to_db` and `enqueue_followups`, src/api.py
lines 286-332) -/

/-- `INSERT INTO leads ... VALUES (..., 0)`: the new row is stored with
`responded = 0`. -/
def save_lead_to_db (db : DB) (lead_id created_utc : Nat)
    (name service interest lead_phone notify_email : String)
    (seq : MsgSeq) (sms_target sms_mode : String) : DB :=
  { db with leads := db.leads ++
      [{ id := lead_id, created_utc := created_utc, name := name,
         service := service, interest := interest, lead_phone := lead_phone,
         notify_email := notify_email, msg_0 := seq.msg_0, msg_24h := seq.msg_24h,
         msg_72h := seq.msg_72h, sms_target := sms_target, sms_mode := sms_mode,
         responded := false }] }

/-- The two delayed jobs: `base_time + 24h` with `msg_24h` and `base_time + 72h`
with `msg_72h`, both inserted with `status='pending', attempts=0,
last_error=NULL`.  (`msg_0` is never enqueued; the caller sends it
synchronously.)  The fresh `uuid4` ids are parameters. -/
def enqueue_followups (db : DB) (lead_id base_time : Nat) (to_number : String)
    (seq : MsgSeq) (jid1 jid2 : Nat) : DB :=
  { db with jobs := db.jobs ++
      [{ id := jid1, lead_id := lead_id, run_at_utc := base_time + hours 24,
         to_number := to_number, body := seq.msg_24h, status := JobStatus.pending,
         attempts := 0, last_error := none },
       { id := jid2, lead_id := lead_id, run_at_utc := base_time + hours 72,
         to_number := to_number, body := seq.msg_72h, status := JobStatus.pending,
         attempts := 0, last_error := none }] }

/-! ### The `/generate-lead-response` handler (src/api.py lines 628-693) -/

/-- The environment configuration the handler reads: `SMS_MODE` and
`TEST_SMS_TO`. -/
structure Config where
  sms_mode_live : Bool
  test_sms_to : String
deriving DecidableEq, Repr

def smsModeName (cfg : Config) : String := if cfg.sms_mode_live then "live" else "test"

/-- `pick_sms_target` (src/api.py lines 222-227): the lead's phone in live
mode, otherwise `TEST_SMS_TO`, raising when that is unset. -/
def pick_sms_target (cfg : Config) (lead_phone : String) : Except String String :=
  if cfg.sms_mode_live then Except.ok lead_phone
  else if cfg.test_sms_to = "" then
    Except.error "SMS_MODE is test but TEST_SMS_TO is missing"
  else Except.ok cfg.test_sms_to

/-- An HTTP-level failure: `HTTPException(status, detail)` raised by the
handler, or an uncaught exception surfacing as a server error. -/
inductive ApiErr
  | http (status : Nat) (detail : String)
deriving DecidableEq, Repr

/-- The handler's JSON response body. -/
structure ApiOut where
  lead_id : Nat
  timestamp_utc : Nat
  seq : MsgSeq
  emailed_to : String
  sms_sent_to : String
deriving DecidableEq, Repr

/-- The messages actually handed to the transports during one request:
`(to, subject, body)` for `send_email`, `(to_number, body)` for `send_sms`. -/
structure Trace where
  emails : List (String × String × String)
  sms : List (String × String)
deriving DecidableEq, Repr

def emptyTrace : Trace := { emails := [], sms := [] }

/-- `not s.strip()`: the string strips to empty exactly when every character
is whitespace.  `str.strip()` with no argument removes the `str.isspace()`
characters, which on CPython coincide with the regex `\s` set embedded as
`pySpace` above. -/
def blankStr (s : String) : Bool := s.toList.all pySpace

def emailSubject (name : String) : String :=
  "New lead follow-up generated for " ++ name

def emailBody (seq : MsgSeq) : String :=
  "Immediate:\n" ++ seq.msg_0 ++ "\n\n+24h:\n" ++ seq.msg_24h ++
    "\n\n+72h:\n" ++ seq.msg_72h ++ "\n"

/-- The `/generate-lead-response` handler.  `keyOk` is whether
`require_api_key` passes; `gen` the OpenAI outcome; `emailer` the
`send_email` outcome; `transport` the `send_sms` behaviour; `lead_id`,
`created_at` and the job ids stand for `uuid4()` / `utcnow()`.  Returns the
HTTP result together with the resulting store and the send trace.  An
uncaught exception from the OpenAI call surfaces as a server error with
nothing persisted; validation failures raise `HTTPException(422, ...)` before
any persistence or send; an email or SMS failure is re-raised as
`HTTPException(500, ...)` — note the lead row is already saved then, and on
an SMS failure no follow-up jobs are enqueued. -/
def generate_lead_response (cfg : Config) (db : DB) (lead : Lead)
    (keyOk : Bool) (gen : GenOutcome) (emailer : Except (String × String) Unit)
    (transport : Transport) (lead_id created_at jid1 jid2 : Nat) :
    Except ApiErr ApiOut × DB × Trace :=
  if keyOk = false then
    (Except.error (ApiErr.http 401 "Unauthorized"), db, emptyTrace)
  else if blankStr lead.name = true ∨ blankStr lead.service = true
      ∨ blankStr lead.interest = true then
    (Except.error (ApiErr.http 422 "name/service/interest cannot be empty"), db, emptyTrace)
  else if is_valid_email lead.notify_email = false then
    (Except.error (ApiErr.http 422 "notify_email is invalid"), db, emptyTrace)
  else if is_valid_e164 lead.lead_phone = false then
    (Except.error (ApiErr.http 422 "lead_phone must be E.164 format like +18015551234"),
     db, emptyTrace)
  else
    match generate_followup_sequence gen with
    | Except.error msg => (Except.error (ApiErr.http 500 msg), db, emptyTrace)
    | Except.ok seq =>
      match pick_sms_target cfg lead.lead_phone with
      | Except.error msg => (Except.error (ApiErr.http 500 msg), db, emptyTrace)
      | Except.ok sms_to =>
        let db1 := save_lead_to_db db lead_id created_at lead.name lead.service
          lead.interest lead.lead_phone lead.notify_email seq sms_to (smsModeName cfg)
        match emailer with
        | Except.error e =>
            (Except.error (ApiErr.http 500 ("Email send failed: " ++ errText e)),
             db1, emptyTrace)
        | Except.ok _ =>
          let tr1 : Trace :=
            { emails := [(lead.notify_email, emailSubject lead.name, emailBody seq)],
              sms := [] }
          match transport sms_to seq.msg_0 with
          | Except.error e =>
              (Except.error (ApiErr.http 500 ("SMS send failed: " ++ errText e)),
               db1, tr1)
          | Except.ok _ =>
              (Except.ok { lead_id := lead_id, timestamp_utc := created_at,
                           seq := seq, emailed_to := lead.notify_email,
                           sms_sent_to := sms_to },
               enqueue_followups db1 lead_id created_at sms_to seq jid1 jid2,
               { tr1 with sms := [(sms_to, seq.msg_0)] })

/-- C4: for every valid lead-creation request (auth passes, non-empty
name/service/interest, valid email and phone) whose sequence generation
yields `seq`, whose SMS-target resolution yields `sms_to`, and whose email
and immediate-SMS sends succeed, the handler enqueues exactly one follow-up
job per configured delayed offset — `created_at + 24h` carrying `msg_24h` and
`created_at + 72h` carrying `msg_72h`, each with `status = pending` and
`attempts = 0` — while the immediate message `msg_0` is sent synchronously
over SMS and never enqueued, and the request succeeds. -/
theorem createLead_schedules_followups (cfg : Config) (db : DB) (lead : Lead)
    (gen : GenOutcome) (seq : MsgSeq) (transport : Transport) (sms_to : String)
    (lead_id created_at jid1 jid2 : Nat)
    (hreq : ¬(blankStr lead.name = true ∨ blankStr lead.service = true
        ∨ blankStr lead.interest = true))
    (hemail : is_valid_email lead.notify_email = true)
    (hphone : is_valid_e164 lead.lead_phone = true)
    (hgen : generate_followup_sequence gen = Except.ok seq)
    (htarget : pick_sms_target cfg lead.lead_phone = Except.ok sms_to)
    (hsms : transport sms_to seq.msg_0 = Except.ok ()) :
    (generate_lead_response cfg db lead true gen (Except.ok ()) transport
        lead_id created_at jid1 jid2).2.1.jobs
      = db.jobs ++
        [{ id := jid1, lead_id := lead_id, run_at_utc := created_at + hours 24,
           to_number := sms_to, body := seq.msg_24h, status := JobStatus.pending,
           attempts := 0, last_error := none },
         { id := jid2, lead_id := lead_id, run_at_utc := created_at + hours 72,
           to_number := sms_to, body := seq.msg_72h, status := JobStatus.pending,
           attempts := 0, last_error := none }]
    ∧ (generate_lead_response cfg db lead true gen (Except.ok ()) transport
        lead_id created_at jid1 jid2).2.2.sms = [(sms_to, seq.msg_0)]
    ∧ (generate_lead_response cfg db lead true gen (Except.ok ()) transport
        lead_id created_at jid1 jid2).1
      = Except.ok { lead_id := lead_id, timestamp_utc := created_at, seq := seq,
                    emailed_to := lead.notify_email, sms_sent_to := sms_to } := by
  have hkey : ¬((true : Bool) = false) := by simp
  have hem : ¬(is_valid_email lead.notify_email = false) := by rw [hemail]; simp
  have hph : ¬(is_valid_e164 lead.lead_phone = false) := by rw [hphone]; simp
  unfold generate_lead_response
  rw [if_neg hkey, if_neg hreq, if_neg hem, if_neg hph]
  simp only [hgen, htarget, hsms]
  refine ⟨?_, ?_, ?_⟩ <;> first | rfl | trivial

/-- Environment for the concrete instances: live SMS mode. -/
def cfg0 : Config := { sms_mode_live := true, test_sms_to := "" }

def db0 : DB := { leads := [], jobs := [] }

/-- A valid request body. -/
def lead0 : Lead :=
  { name := "Mike", service := "Roofing estimate", interest := "Storm damage",
    notify_email := "mike@example.com", lead_phone := "+15551234567" }

/-- C4 witness: `createLead_schedules_followups` on an empty store with a
valid request, the fallback sequence and an always-successful transport. -/
theorem createLead_schedules_followups_witness :
    (generate_lead_response cfg0 db0 lead0 true (GenOutcome.text none)
        (Except.ok ()) okTransport 1 100 2 3).2.1.jobs
      = db0.jobs ++
        [{ id := 2, lead_id := 1, run_at_utc := 100 + hours 24,
           to_number := "+15551234567", body := fallbackSeq.msg_24h,
           status := JobStatus.pending, attempts := 0, last_error := none },
         { id := 3, lead_id := 1, run_at_utc := 100 + hours 72,
           to_number := "+15551234567", body := fallbackSeq.msg_72h,
           status := JobStatus.pending, attempts := 0, last_error := none }]
    ∧ (generate_lead_response cfg0 db0 lead0 true (GenOutcome.text none)
        (Except.ok ()) okTransport 1 100 2 3).2.2.sms
      = [("+15551234567", fallbackSeq.msg_0)]
    ∧ (generate_lead_response cfg0 db0 lead0 true (GenOutcome.text none)
        (Except.ok ()) okTransport 1 100 2 3).1
      = Except.ok { lead_id := 1, timestamp_utc := 100, seq := fallbackSeq,
                    emailed_to := "mike@example.com",
                    sms_sent_to := "+15551234567" } :=
  createLead_schedules_followups cfg0 db0 lead0 (GenOutcome.text none)
    fallbackSeq okTransport "+15551234567" 1 100 2 3 (by decide) (by decide)
    (by decide) rfl rfl rfl

/-- C6 counterexample: the claim fails on the code for a generator failure
that raises.  `generate_followup_sequence` catches only `json.JSONDecodeError`
(src/api.py line 276); an exception from the OpenAI call itself propagates
out of `generate_lead_response` (no try/except around the call at line 648),
so on this concrete, otherwise valid request nothing is saved, nothing is
enqueued and nothing is sent — the lead's jobs are not scheduled, refuting
"a generation failure never prevents the lead from being saved and its
followup jobs from being scheduled". -/
theorem genRaise_prevents_save :
    (generate_lead_response cfg0 db0 lead0 true GenOutcome.raised
        (Except.ok ()) okTransport 1 100 2 3).2.1 = db0
    ∧ (generate_lead_response cfg0 db0 lead0 true GenOutcome.raised
        (Except.ok ()) okTransport 1 100 2 3).2.2 = emptyTrace
    ∧ (generate_lead_response cfg0 db0 lead0 true GenOutcome.raised
        (Except.ok ()) okTransport 1 100 2 3).1
      = Except.error (ApiErr.http 500 "OpenAI API call raised") := by
  refine ⟨by decide, by decide, rfl⟩

/-- C6 as amended: when the generator returns text that is not valid JSON,
the core substitutes the fixed fallback sequence — the lead is still saved
and both follow-up jobs are scheduled from the fallback messages; but when
the generator call itself raises, the exception propagates and the request
fails with nothing persisted. -/
theorem genParseFailure_uses_fallback (cfg : Config) (db : DB) (lead : Lead)
    (transport : Transport) (sms_to : String) (lead_id created_at jid1 jid2 : Nat)
    (hreq : ¬(blankStr lead.name = true ∨ blankStr lead.service = true
        ∨ blankStr lead.interest = true))
    (hemail : is_valid_email lead.notify_email = true)
    (hphone : is_valid_e164 lead.lead_phone = true)
    (htarget : pick_sms_target cfg lead.lead_phone = Except.ok sms_to)
    (hsms : transport sms_to fallbackSeq.msg_0 = Except.ok ()) :
    ((generate_lead_response cfg db lead true (GenOutcome.text none)
        (Except.ok ()) transport lead_id created_at jid1 jid2).1
      = Except.ok { lead_id := lead_id, timestamp_utc := created_at,
                    seq := fallbackSeq, emailed_to := lead.notify_email,
                    sms_sent_to := sms_to }
    ∧ (generate_lead_response cfg db lead true (GenOutcome.text none)
        (Except.ok ()) transport lead_id created_at jid1 jid2).2.1.leads
      = db.leads ++
        [{ id := lead_id, created_utc := created_at, name := lead.name,
           service := lead.service, interest := lead.interest,
           lead_phone := lead.lead_phone, notify_email := lead.notify_email,
           msg_0 := fallbackSeq.msg_0, msg_24h := fallbackSeq.msg_24h,
           msg_72h := fallbackSeq.msg_72h, sms_target := sms_to,
           sms_mode := smsModeName cfg, responded := false }]
    ∧ (generate_lead_response cfg db lead true (GenOutcome.text none)
        (Except.ok ()) transport lead_id created_at jid1 jid2).2.1.jobs
      = db.jobs ++
        [{ id := jid1, lead_id := lead_id, run_at_utc := created_at + hours 24,
           to_number := sms_to, body := fallbackSeq.msg_24h,
           status := JobStatus.pending, attempts := 0, last_error := none },
         { id := jid2, lead_id := lead_id, run_at_utc := created_at + hours 72,
           to_number := sms_to, body := fallbackSeq.msg_72h,
           status := JobStatus.pending, attempts := 0, last_error := none }])
    ∧ ((generate_lead_response cfg db lead true GenOutcome.raised
        (Except.ok ()) transport lead_id created_at jid1 jid2).2.1 = db
    ∧ (generate_lead_response cfg db lead true GenOutcome.raised
        (Except.ok ()) transport lead_id created_at jid1 jid2).1
      = Except.error (ApiErr.http 500 "OpenAI API call raised")) := by
  have hkey : ¬((true : Bool) = false) := by simp
  have hem : ¬(is_valid_email lead.notify_email = false) := by rw [hemail]; simp
  have hph : ¬(is_valid_e164 lead.lead_phone = false) := by rw [hphone]; simp
  constructor
  · have hgen : generate_followup_sequence (GenOutcome.text none)
        = Except.ok fallbackSeq := rfl
    unfold generate_lead_response
    rw [if_neg hkey, if_neg hreq, if_neg hem, if_neg hph]
    simp only [hgen, htarget, hsms]
    refine ⟨?_, ?_, ?_⟩ <;> first | rfl | trivial
  · unfold generate_lead_response
    rw [if_neg hkey, if_neg hreq, if_neg hem, if_neg hph]
    exact ⟨rfl, rfl⟩

/-- C6 witness: `genParseFailure_uses_fallback` at the concrete valid request
`lead0` on an empty store. -/
theorem genParseFailure_uses_fallback_witness :
    ((generate_lead_response cfg0 db0 lead0 true (GenOutcome.text none)
        (Except.ok ()) okTransport 1 100 2 3).1
      = Except.ok { lead_id := 1, timestamp_utc := 100, seq := fallbackSeq,
                    emailed_to := "mike@example.com",
                    sms_sent_to := "+15551234567" }
    ∧ (generate_lead_response cfg0 db0 lead0 true (GenOutcome.text none)
        (Except.ok ()) okTransport 1 100 2 3).2.1.leads
      = db0.leads ++
        [{ id := 1, created_utc := 100, name := "Mike",
           service := "Roofing estimate", interest := "Storm damage",
           lead_phone := "+15551234567", notify_email := "mike@example.com",
           msg_0 := fallbackSeq.msg_0, msg_24h := fallbackSeq.msg_24h,
           msg_72h := fallbackSeq.msg_72h, sms_target := "+15551234567",
           sms_mode := smsModeName cfg0, responded := false }]
    ∧ (generate_lead_response cfg0 db0 lead0 true (GenOutcome.text none)
        (Except.ok ()) okTransport 1 100 2 3).2.1.jobs
      = db0.jobs ++
        [{ id := 2, lead_id := 1, run_at_utc := 100 + hours 24,
           to_number := "+15551234567", body := fallbackSeq.msg_24h,
           status := JobStatus.pending, attempts := 0, last_error := none },
         { id := 3, lead_id := 1, run_at_utc := 100 + hours 72,
           to_number := "+15551234567", body := fallbackSeq.msg_72h,
           status := JobStatus.pending, attempts := 0, last_error := none }])
    ∧ ((generate_lead_response cfg0 db0 lead0 true GenOutcome.raised
        (Except.ok ()) okTransport 1 100 2 3).2.1 = db0
    ∧ (generate_lead_response cfg0 db0 lead0 true GenOutcome.raised
        (Except.ok ()) okTransport 1 100 2 3).1
      = Except.error (ApiErr.http 500 "OpenAI API call raised")) :=
  genParseFailure_uses_fallback cfg0 db0 lead0 okTransport "+15551234567"
    1 100 2 3 (by decide) (by decide) (by decide) rfl rfl

/-- The failing input for C7: an otherwise valid request whose phone is `+`
followed by the ten Arabic-Indic digits U+0660-U+0669 — not `+` followed by
10-15 digits in the claim's (E.164) sense. -/
def leadNdPhone : Lead := { lead0 with lead_phone := "+٠١٢٣٤٥٦٧٨٩" }

/-- C7: the code violates the claim at the failing input.  Python's `\d` in
`re.fullmatch(r"\+\d{10,15}", ...)` matches every Unicode decimal digit, so
`is_valid_e164` accepts `"+٠١٢٣٤٥٦٧٨٩"` even though that phone is invalid in
the claim's sense (`specClaimPhoneValid` is false: its characters after `+`
are not digits `0`-`9`) and the code's own 422 detail demands "E.164 format
like +18015551234".  The request is not rejected: the handler persists a lead
row for this phone, sends the immediate SMS to it and enqueues both follow-up
jobs — persistence and sends for a request the claim says must fail
validation with no side effects. -/
theorem unicode_digit_phone_accepted :
    specClaimPhoneValid "+٠١٢٣٤٥٦٧٨٩" = false
    ∧ is_valid_e164 "+٠١٢٣٤٥٦٧٨٩" = true
    ∧ (generate_lead_response cfg0 db0 leadNdPhone true (GenOutcome.text none)
        (Except.ok ()) okTransport 1 100 2 3).1
      = Except.ok { lead_id := 1, timestamp_utc := 100, seq := fallbackSeq,
                    emailed_to := "mike@example.com",
                    sms_sent_to := "+٠١٢٣٤٥٦٧٨٩" }
    ∧ ((generate_lead_response cfg0 db0 leadNdPhone true (GenOutcome.text none)
        (Except.ok ()) okTransport 1 100 2 3).2.1.leads.map LeadRow.lead_phone)
      = ["+٠١٢٣٤٥٦٧٨٩"]
    ∧ ((generate_lead_response cfg0 db0 leadNdPhone true (GenOutcome.text none)
        (Except.ok ()) okTransport 1 100 2 3).2.1.jobs.map FollowupJob.status)
      = [JobStatus.pending, JobStatus.pending]
    ∧ (generate_lead_response cfg0 db0 leadNdPhone true (GenOutcome.text none)
        (Except.ok ()) okTransport 1 100 2 3).2.2.sms
      = [("+٠١٢٣٤٥٦٧٨٩", fallbackSeq.msg_0)] := by
  refine ⟨by decide, by decide, rfl, by decide, by decide, by decide⟩

/-! ### Monotonicity of `responded` (C8) -/

/-- `update_lead_name_by_phone` (src/api.py lines 157-169): sets `name` for
leads matching the phone whose saved name is blank or `"(unknown)"`; a no-op
when `first_name` is empty.  (`name` is `NOT NULL`, so the SQL's `name IS
NULL` arm cannot fire.) -/
def update_lead_name_by_phone (db : DB) (phone first_name : String) : DB :=
  if first_name = "" then db
  else
    { db with leads := db.leads.map fun l =>
        if l.lead_phone = phone ∧ (l.name = "" ∨ l.name = "(unknown)") then
          { l with name := first_name }
        else l }

/-- The store-mutating operations of the API: lead creation
(`/generate-lead-response`), response recording (`/twilio/sms` →
`mark_responded_by_phone`), a dispatch batch (`/dispatch-followups`), and the
name-update enrichment. -/
inductive Op
  | create (cfg : Config) (lead : Lead) (keyOk : Bool) (gen : GenOutcome)
      (emailer : Except (String × String) Unit) (transport : Transport)
      (lead_id created_at jid1 jid2 : Nat)
  | respond (phone : String)
  | dispatch (now : Nat) (transport : Transport)
  | updateName (phone first_name : String)

def step (db : DB) : Op → DB
  | Op.create cfg lead keyOk gen emailer transport lid t j1 j2 =>
      (generate_lead_response cfg db lead keyOk gen emailer transport lid t j1 j2).2.1
  | Op.respond phone => (mark_responded_by_phone db phone).1
  | Op.dispatch now transport => (dispatch_followups db now transport).1
  | Op.updateName phone fn => update_lead_name_by_phone db phone fn

/-- Every path of the handler either leaves the leads table unchanged or
appends exactly one row, and such a row is stored with `responded = false`. -/
theorem glr_leads (cfg : Config) (db : DB) (lead : Lead) (keyOk : Bool)
    (gen : GenOutcome) (emailer : Except (String × String) Unit)
    (transport : Transport) (lid t j1 j2 : Nat) :
    (generate_lead_response cfg db lead keyOk gen emailer transport
        lid t j1 j2).2.1.leads = db.leads
    ∨ ∃ row : LeadRow,
        (generate_lead_response cfg db lead keyOk gen emailer transport
            lid t j1 j2).2.1.leads = db.leads ++ [row]
        ∧ row.responded = false := by
  unfold generate_lead_response
  split
  · exact Or.inl rfl
  · split
    · exact Or.inl rfl
    · split
      · exact Or.inl rfl
      · split
        · exact Or.inl rfl
        · split
          · exact Or.inl rfl
          · split
            · exact Or.inl rfl
            · split
              · exact Or.inr ⟨_, rfl, rfl⟩
              · split
                · exact Or.inr ⟨_, rfl, rfl⟩
                · exact Or.inr ⟨_, rfl, rfl⟩

theorem step_preserves_responded (db : DB) (op : Op) (l : LeadRow)
    (hl : l ∈ db.leads) (hr : l.responded = true) :
    ∃ l' ∈ (step db op).leads, l'.id = l.id ∧ l'.responded = true := by
  cases op with
  | create cfg lead keyOk gen emailer transport lid t j1 j2 =>
      rcases glr_leads cfg db lead keyOk gen emailer transport lid t j1 j2 with
        heq | ⟨row, hrow, -⟩
      · refine ⟨l, ?_, rfl, hr⟩
        show l ∈ (generate_lead_response cfg db lead keyOk gen emailer transport
          lid t j1 j2).2.1.leads
        rw [heq]; exact hl
      · refine ⟨l, ?_, rfl, hr⟩
        show l ∈ (generate_lead_response cfg db lead keyOk gen emailer transport
          lid t j1 j2).2.1.leads
        rw [hrow]; exact List.mem_append_left _ hl
  | respond phone =>
      refine ⟨if l.lead_phone = phone then { l with responded := true } else l,
        List.mem_map.mpr ⟨l, hl, rfl⟩, ?_, ?_⟩
      · by_cases h : l.lead_phone = phone
        · rw [if_pos h]
        · rw [if_neg h]
      · by_cases h : l.lead_phone = phone
        · rw [if_pos h]
        · rw [if_neg h]; exact hr
  | dispatch now transport => exact ⟨l, hl, rfl, hr⟩
  | updateName phone fn =>
      show ∃ l' ∈ (update_lead_name_by_phone db phone fn).leads, _ ∧ _
      unfold update_lead_name_by_phone
      by_cases hf : fn = ""
      · rw [if_pos hf]; exact ⟨l, hl, rfl, hr⟩
      · rw [if_neg hf]
        refine ⟨if l.lead_phone = phone ∧ (l.name = "" ∨ l.name = "(unknown)") then
            { l with name := fn } else l,
          List.mem_map.mpr ⟨l, hl, rfl⟩, ?_, ?_⟩
        · by_cases h : l.lead_phone = phone ∧ (l.name = "" ∨ l.name = "(unknown)")
          · rw [if_pos h]
          · rw [if_neg h]
        · by_cases h : l.lead_phone = phone ∧ (l.name = "" ∨ l.name = "(unknown)")
          · rw [if_pos h]; exact hr
          · rw [if_neg h]; exact hr

theorem step_new_lead_unresponded (db : DB) (op : Op) (l' : LeadRow)
    (h : l' ∈ (step db op).leads) (hnew : ∀ l ∈ db.leads, l'.id ≠ l.id) :
    l'.responded = false := by
  cases op with
  | create cfg lead keyOk gen emailer transport lid t j1 j2 =>
      rcases glr_leads cfg db lead keyOk gen emailer transport lid t j1 j2 with
        heq | ⟨row, hrow, hresp⟩
      · have hmem : l' ∈ db.leads := by
          have : l' ∈ (generate_lead_response cfg db lead keyOk gen emailer
              transport lid t j1 j2).2.1.leads := h
          rwa [heq] at this
        exact absurd rfl (hnew l' hmem)
      · have hmem : l' ∈ db.leads ++ [row] := by
          have : l' ∈ (generate_lead_response cfg db lead keyOk gen emailer
              transport lid t j1 j2).2.1.leads := h
          rwa [hrow] at this
        rcases List.mem_append.mp hmem with hin | hone
        · exact absurd rfl (hnew l' hin)
        · rw [List.mem_singleton.mp hone]; exact hresp
  | respond phone =>
      rcases List.mem_map.mp h with ⟨l, hl, rfl⟩
      by_cases hp : l.lead_phone = phone
      · rw [if_pos hp] at hnew ⊢
        exact absurd rfl (hnew l hl)
      · rw [if_neg hp] at hnew ⊢
        exact absurd rfl (hnew l hl)
  | dispatch now transport => exact absurd rfl (hnew l' h)
  | updateName phone fn =>
      have h' : l' ∈ (update_lead_name_by_phone db phone fn).leads := h
      unfold update_lead_name_by_phone at h'
      by_cases hf : fn = ""
      · rw [if_pos hf] at h'
        exact absurd rfl (hnew l' h')
      · rw [if_neg hf] at h'
        rcases List.mem_map.mp h' with ⟨l, hl, rfl⟩
        by_cases hc : l.lead_phone = phone ∧ (l.name = "" ∨ l.name = "(unknown)")
        · rw [if_pos hc] at hnew ⊢
          exact absurd rfl (hnew l hl)
        · rw [if_neg hc] at hnew ⊢
          exact absurd rfl (hnew l hl)

theorem foldl_preserves_responded (ops : List Op) :
    ∀ (db : DB) (l : LeadRow), l ∈ db.leads → l.responded = true →
      ∃ l' ∈ (ops.foldl step db).leads, l'.id = l.id ∧ l'.responded = true := by
  induction ops with
  | nil => exact fun db l hl hr => ⟨l, hl, rfl, hr⟩
  | cons op ops ih =>
      intro db l hl hr
      rw [List.foldl_cons]
      obtain ⟨l', hl', hid, hr'⟩ := step_preserves_responded db op l hl hr
      obtain ⟨l'', hl'', hid', hr''⟩ := ih (step db op) l' hl' hr'
      exact ⟨l'', hl'', hid'.trans hid, hr''⟩

/-- C8: the `responded` flag is monotonic.  Across any sequence of the store's
operations — lead creation, response recording, dispatch batches and name
updates — a lead whose `responded` is `true` keeps a row with its id and
`responded = true`: no operation ever writes `responded = false` over `true`.
And a lead row produced by an operation under an id the store did not hold
before (a freshly created lead) starts with `responded = false`. -/
theorem responded_monotonic (db : DB) (ops : List Op) :
    (∀ l ∈ db.leads, l.responded = true →
      ∃ l' ∈ (ops.foldl step db).leads, l'.id = l.id ∧ l'.responded = true)
    ∧ (∀ op : Op, ∀ l' ∈ (step db op).leads,
        (∀ l ∈ db.leads, l'.id ≠ l.id) → l'.responded = false) :=
  ⟨fun l hl hr => foldl_preserves_responded ops db l hl hr,
   fun op l' h hnew => step_new_lead_unresponded db op l' h hnew⟩

end LeadApi
